import Mathlib

/-!
Verification of the Beisman Maps single-page application client
(`static/js/app.js`). The JavaScript class `BeismanMapApp` is shallowly
embedded: its mutable fields become an explicit `AppState` record, DOM
rendering is tracked as a log of rendered page names, and network calls
made by form handlers are tracked as explicit `Request` lists with the
backend's responses supplied as oracles. JavaScript string operations
(`trim`, `split`, `startsWith`, `toLowerCase`, `encodeURIComponent`,
`decodeURIComponent`, truthiness, `||` defaulting) are modelled by
executable character-list functions so that concrete runs evaluate
inside the kernel.
-/

/-- Tests whether `needle` occurs at the head of `hay`
(the core of JavaScript `String.prototype.startsWith`). -/
def leadMatch : List Char → List Char → Bool
  | [], _ => true
  | _ :: _, [] => false
  | a :: as, b :: bs => a == b && leadMatch as bs

/-- Tests whether `needle` occurs anywhere inside `hay` (substring test,
used to state that a rendered HTML fragment contains a given control). -/
def hasRun (needle : List Char) : List Char → Bool
  | [] => needle.isEmpty
  | c :: rest => leadMatch needle (c :: rest) || hasRun needle (c :: rest).tail

/-- Models JavaScript `str.startsWith(searchString)`. -/
def jsStartsWith (s pre : String) : Bool := leadMatch pre.data s.data

/-- Worker for `jsSplit`: scans `hay`, cutting at every occurrence of the
non-empty separator `sep`. The `Nat` argument is a fuel bounded below by the
length of `hay`, which keeps the recursion structural. -/
def splitAux (sep : List Char) : Nat → List Char → List Char → List (List Char)
  | _, [], acc => [acc.reverse]
  | 0, hay, acc => [acc.reverse ++ hay]
  | Nat.succ n, c :: rest, acc =>
    if leadMatch sep (c :: rest) then
      acc.reverse :: splitAux sep n (List.drop (sep.length - 1) rest) []
    else
      splitAux sep n rest (c :: acc)

/-- Models JavaScript `str.split(sep)` for a non-empty string separator:
leftmost, non-overlapping matches. -/
def jsSplit (s sep : String) : List String :=
  (splitAux sep.data s.data.length s.data []).map String.mk

/-- ASCII whitespace recognised by the model of JavaScript `trim`. -/
def isJsSpace (c : Char) : Bool :=
  c == ' ' || c == '\t' || c == '\n' || c == '\r' || c == Char.ofNat 11 || c == Char.ofNat 12

/-- Models JavaScript `str.trim()` (ASCII whitespace). -/
def jsTrim (s : String) : String :=
  String.mk (((s.data.dropWhile isJsSpace).reverse.dropWhile isJsSpace).reverse)

/-- ASCII lowering of one character, the fragment of JavaScript
`toLowerCase` exercised by this application (entity names and A–Z letter
buttons). -/
def lowerChar (c : Char) : Char :=
  if 65 ≤ c.toNat ∧ c.toNat ≤ 90 then Char.ofNat (c.toNat + 32) else c

/-- Models JavaScript `str.toLowerCase()` on ASCII data. -/
def jsToLower (s : String) : String := String.mk (s.data.map lowerChar)

/-- Length of a string in UTF-16 code units, which is what JavaScript's
`String.prototype.length` counts. -/
def utf16Length (s : String) : Nat :=
  s.data.foldl (fun n c => n + (if c.toNat < 65536 then 1 else 2)) 0

/-- UTF-8 encoding of a Unicode scalar value, as a list of byte values. -/
def utf8Bytes (n : Nat) : List Nat :=
  if n < 128 then [n]
  else if n < 2048 then [192 + n / 64, 128 + n % 64]
  else if n < 65536 then [224 + n / 4096, 128 + (n / 64) % 64, 128 + n % 64]
  else [240 + n / 262144, 128 + (n / 4096) % 64, 128 + (n / 64) % 64, 128 + n % 64]

/-- Uppercase hexadecimal digit for a value below 16. -/
def hexDigitChar (n : Nat) : Char :=
  if n < 10 then Char.ofNat (48 + n) else Char.ofNat (55 + n)

/-- Percent-escape of one byte, e.g. byte 233 becomes `%E9`. -/
def percentByte (b : Nat) : List Char :=
  ['%', hexDigitChar (b / 16), hexDigitChar (b % 16)]

/-- Characters left unescaped by JavaScript `encodeURIComponent`:
letters, digits, and `- _ . ! ~ * ' ( )`. -/
def uriUnreservedChar (c : Char) : Bool :=
  (65 ≤ c.toNat && c.toNat ≤ 90) || (97 ≤ c.toNat && c.toNat ≤ 122) ||
  (48 ≤ c.toNat && c.toNat ≤ 57) ||
  c == '-' || c == '_' || c == '.' || c == '!' || c == '~' || c == '*' ||
  c == Char.ofNat 39 || c == '(' || c == ')'

/-- Character-list worker for `encodeURIComponent`. -/
def encodeURIComponentChars : List Char → List Char
  | [] => []
  | c :: rest =>
    (if uriUnreservedChar c then [c]
     else ((utf8Bytes c.toNat).map percentByte).flatten) ++ encodeURIComponentChars rest

/-- Models JavaScript `encodeURIComponent`. -/
def encodeURIComponent (s : String) : String :=
  String.mk (encodeURIComponentChars s.data)

/-- Value of a hexadecimal digit character, if it is one. -/
def hexVal (c : Char) : Option Nat :=
  if 48 ≤ c.toNat ∧ c.toNat ≤ 57 then some (c.toNat - 48)
  else if 65 ≤ c.toNat ∧ c.toNat ≤ 70 then some (c.toNat - 55)
  else if 97 ≤ c.toNat ∧ c.toNat ≤ 102 then some (c.toNat - 87)
  else none

/-- Turns a percent-escaped character list into a byte list; `none` models
the `URIError` JavaScript throws on a malformed escape. Unescaped
characters contribute their UTF-8 bytes. -/
def percentDecode : List Char → Option (List Nat)
  | [] => some []
  | '%' :: h1 :: h2 :: rest =>
    match hexVal h1, hexVal h2 with
    | some a, some b => (percentDecode rest).map (fun l => (16 * a + b) :: l)
    | _, _ => none
  | '%' :: _ => none
  | c :: rest => (percentDecode rest).map (fun l => utf8Bytes c.toNat ++ l)

/-- Validating UTF-8 decoder on byte values; `none` models the `URIError`
JavaScript throws on an invalid byte sequence (stray continuation bytes,
overlong forms, surrogates, out-of-range values). -/
def utf8Decode : List Nat → Option (List Char)
  | [] => some []
  | b :: rest =>
    if b < 128 then (utf8Decode rest).map (fun l => Char.ofNat b :: l)
    else if b < 194 then none
    else if b < 224 then
      match rest with
      | b1 :: rest1 =>
        if 128 ≤ b1 ∧ b1 < 192 then
          (utf8Decode rest1).map (fun l => Char.ofNat ((b - 192) * 64 + (b1 - 128)) :: l)
        else none
      | [] => none
    else if b < 240 then
      match rest with
      | b1 :: b2 :: rest2 =>
        if (128 ≤ b1 ∧ b1 < 192) ∧ (128 ≤ b2 ∧ b2 < 192) then
          if 2048 ≤ (b - 224) * 4096 + (b1 - 128) * 64 + (b2 - 128) ∧
             ¬(55296 ≤ (b - 224) * 4096 + (b1 - 128) * 64 + (b2 - 128) ∧
               (b - 224) * 4096 + (b1 - 128) * 64 + (b2 - 128) ≤ 57343) then
            (utf8Decode rest2).map
              (fun l => Char.ofNat ((b - 224) * 4096 + (b1 - 128) * 64 + (b2 - 128)) :: l)
          else none
        else none
      | _ => none
    else if b < 245 then
      match rest with
      | b1 :: b2 :: b3 :: rest3 =>
        if (128 ≤ b1 ∧ b1 < 192) ∧ (128 ≤ b2 ∧ b2 < 192) ∧ (128 ≤ b3 ∧ b3 < 192) then
          if 65536 ≤ (b - 240) * 262144 + (b1 - 128) * 4096 + (b2 - 128) * 64 + (b3 - 128) ∧
             (b - 240) * 262144 + (b1 - 128) * 4096 + (b2 - 128) * 64 + (b3 - 128) ≤ 1114111 then
            (utf8Decode rest3).map
              (fun l =>
                Char.ofNat ((b - 240) * 262144 + (b1 - 128) * 4096 + (b2 - 128) * 64 + (b3 - 128)) :: l)
          else none
        else none
      | _ => none
    else none

/-- Models JavaScript `decodeURIComponent`; `none` stands for the thrown
`URIError`. -/
def decodeURIComponent (s : String) : Option String :=
  (percentDecode s.data).bind (fun bytes => (utf8Decode bytes).map String.mk)

/-- Models JavaScript `v || dflt` on a possibly-missing string value:
`null`/`undefined` and the empty string are falsy. -/
def jsOrStr (v : Option String) (dflt : String) : String :=
  match v with
  | none => dflt
  | some sv => if sv = "" then dflt else sv

/-- Truthiness of a possibly-missing string value: `null`/`undefined`
and `""` are falsy. -/
def jsTruthyOpt : Option String → Bool
  | none => false
  | some v => !(v == "")

/-- Models JavaScript `Array.prototype.join(sep)` on an array of strings. -/
def joinWith (sep : String) : List String → String
  | [] => ""
  | [x] => x
  | x :: xs => x ++ sep ++ joinWith sep xs

/-- The client's cached session record (`this.currentUser` when non-null). -/
structure User where
  username : String
  displayName : String
  isAdmin : Bool
  sessionId : Option String
deriving DecidableEq, Repr

/-- The mutable fields of the `BeismanMapApp` instance, together with the
browser-visible URL path (`window.location.pathname`) and the document's
page title, which the class keeps in sync. -/
structure AppState where
  currentUser : Option User
  currentPage : String
  pageHistory : List String
  selectedMapId : Option String
  selectedEntityInfo : Option String
  tempEntitiesList : List String
  locationPath : String
  pageTitle : String
deriving DecidableEq, Repr

/-- Truthiness of `this.currentUser?.isAdmin`. -/
def jsIsAdmin : Option User → Bool
  | none => false
  | some u => u.isAdmin

/-- One backend HTTP request issued by a form handler. -/
inductive Request where
  | postMap (number drawer propertyDetails createdBy : String)
  | putMap (mapId drawer propertyDetails : String)
  | postEntityAdd (mapId entityNameEncoded : String)
  | deleteEntity (mapId entityNameEncoded : String)
deriving DecidableEq, Repr

/-- Parsed JSON body of a mutation response: `{success, message?}`. -/
structure ApiResult where
  success : Bool
  message : Option String
deriving DecidableEq, Repr

/-- Observable outcome of one form-handler run: the backend requests it
issued in order, the blocking alerts it showed in order, and the temporary
entity list it left behind. -/
structure HandlerOutcome where
  requests : List Request
  alerts : List String
  tempAfter : List String
deriving DecidableEq, Repr

/-- One record of the entities table as consumed by the client. -/
structure Entity where
  EntityName : Option String
  BeismanNumber : Option String
deriving DecidableEq, Repr

/-- The `urlPaths` table of `updateBrowserHistory`: canonical URL path for a
logical page name, with JavaScript `|| '/'` as the default for unknown
pages. A missing or empty `selectedMapId`/`selectedEntityInfo` is falsy, so
the detail pages then map to their bare paths. -/
def urlPathFor (page : String) (selectedMapId selectedEntityInfo : Option String) : String :=
  if page = "home" then "/"
  else if page = "admin-panel" then "/admin-panel"
  else if page = "browse-maps" then "/browse-maps"
  else if page = "browse-entities" then "/browse-entities"
  else if page = "insert-map" then "/insert-map"
  else if page = "update-delete" then "/update-delete"
  else if page = "map-details" then
    (if jsTruthyOpt selectedMapId then "/map-details/" ++ selectedMapId.getD ""
     else "/map-details")
  else if page = "entity-details" then
    (if jsTruthyOpt selectedEntityInfo then
       "/entity-details/" ++ encodeURIComponent (selectedEntityInfo.getD "")
     else "/entity-details")
  else "/"

/-- Models `updateBrowserHistory(page, selectedMapId, selectedEntityInfo)`:
computes the canonical path and pushes it onto the browser history (which we
observe through `locationPath`) only when it differs from the current path. -/
def updateBrowserHistory (page : String) (selectedMapId selectedEntityInfo : Option String)
    (s : AppState) : AppState :=
  if s.locationPath ≠ urlPathFor page selectedMapId selectedEntityInfo then
    { s with locationPath := urlPathFor page selectedMapId selectedEntityInfo }
  else s

/-- The `pageTitles` lookup of `updatePageTitle`, with its
`|| 'Beisman Map Menu'` fallback for unknown page names. -/
def pageTitleFor (page : String) : String :=
  if page = "home" then "Beisman Map Menu"
  else if page = "admin-panel" then "Beisman Map Menu - Admin Panel"
  else if page = "admin-login" then "Beisman Map Menu - Admin Login"
  else if page = "browse-maps" then "Browse Beisman Maps"
  else if page = "browse-entities" then "Browse Beisman Entities"
  else if page = "map-details" then "Map Information"
  else if page = "entity-details" then "Entity Information"
  else if page = "insert-map" then "Insert New Map"
  else if page = "update-delete" then "Update/Delete Map"
  else "Beisman Map Menu"

/-- Models `updatePageTitle()`. -/
def updatePageTitle (s : AppState) : AppState :=
  { s with pageTitle := pageTitleFor s.currentPage }

/-- Models `loadHomePage(container)`: renders static markup only. The second
component of every renderer's result is the log of page names whose
page-specific content was actually rendered. -/
def loadHomePage (s : AppState) : AppState × List String := (s, ["home"])

/-- Models `loadBrowseMaps(container)`: fetches and renders the maps list;
it mutates no application state. -/
def loadBrowseMaps (s : AppState) : AppState × List String := (s, ["browse-maps"])

/-- Models `loadBrowseEntities(container)`: fetches and renders the entities
list; it mutates no application state. -/
def loadBrowseEntities (s : AppState) : AppState × List String := (s, ["browse-entities"])

/-- Models `loadMapDetails(container)`: renders the details of
`selectedMapId`; it mutates no application state. -/
def loadMapDetails (s : AppState) : AppState × List String := (s, ["map-details"])

/-- Models `loadEntityDetails(container)`: renders the selected entity, or a
warning when `selectedEntityInfo` is unset; it mutates no application
state. -/
def loadEntityDetails (s : AppState) : AppState × List String := (s, ["entity-details"])

/-- Models `loadAdminPanel(container)`. The `nav` argument is `navigateTo`
at the enclosing fuel, supplied by `loadCurrentPageWith`; a non-admin
session is redirected to `home` before any admin markup is rendered. -/
def loadAdminPanelWith (nav : String → Bool → AppState → AppState × List String)
    (s : AppState) : AppState × List String :=
  if jsIsAdmin s.currentUser = false then nav "home" true s
  else (s, ["admin-panel"])

/-- Models `loadInsertMap(container)`: after the admin gate it resets
`tempEntitiesList` to `[]` and renders the insert form. -/
def loadInsertMapWith (nav : String → Bool → AppState → AppState × List String)
    (s : AppState) : AppState × List String :=
  if jsIsAdmin s.currentUser = false then nav "home" true s
  else ({ s with tempEntitiesList := [] }, ["insert-map"])

/-- Models `loadUpdateDelete(container)`: after the admin gate, a falsy
`selectedMapId` renders only a guidance message, otherwise the edit form is
loaded; neither path mutates application state. -/
def loadUpdateDeleteWith (nav : String → Bool → AppState → AppState × List String)
    (s : AppState) : AppState × List String :=
  if jsIsAdmin s.currentUser = false then nav "home" true s
  else if jsTruthyOpt s.selectedMapId = false then (s, ["update-delete"])
  else (s, ["update-delete"])

/-- Models the `switch (this.currentPage)` dispatch of `loadCurrentPage()`,
parameterised by the `navigateTo` implementation handed to the renderers
that can redirect. Unknown page names fall through to the home renderer. -/
def loadCurrentPageWith (nav : String → Bool → AppState → AppState × List String)
    (s : AppState) : AppState × List String :=
  if s.currentPage = "home" then loadHomePage s
  else if s.currentPage = "admin-panel" then loadAdminPanelWith nav s
  else if s.currentPage = "browse-maps" then loadBrowseMaps s
  else if s.currentPage = "browse-entities" then loadBrowseEntities s
  else if s.currentPage = "map-details" then loadMapDetails s
  else if s.currentPage = "entity-details" then loadEntityDetails s
  else if s.currentPage = "insert-map" then loadInsertMapWith nav s
  else if s.currentPage = "update-delete" then loadUpdateDeleteWith nav s
  else loadHomePage s

/-- Models `navigateTo(page, addToHistory = true)`: push the current page
onto `pageHistory` (unless suppressed or navigating to the same page), set
`currentPage`, synchronise the browser URL and the page title, then render
through the `loadCurrentPage` dispatch. The fuel bounds the depth of
renderer-initiated redirects (in the source at most one, from an admin gate
to `home`); at fuel `0` the model stops without rendering. -/
def navigateTo : Nat → String → Bool → AppState → AppState × List String
  | 0, _, _, s => (s, [])
  | Nat.succ f, page, addToHistory, s =>
    let s1 := if addToHistory ∧ page ≠ s.currentPage then
                { s with pageHistory := s.pageHistory ++ [s.currentPage] }
              else s
    let s2 := { s1 with currentPage := page }
    let s3 := updateBrowserHistory page s2.selectedMapId s2.selectedEntityInfo s2
    let s4 := updatePageTitle s3
    loadCurrentPageWith (navigateTo f) s4

/-- Models `loadCurrentPage()` at a given redirect fuel. -/
def loadCurrentPage (fuel : Nat) (s : AppState) : AppState × List String :=
  loadCurrentPageWith (navigateTo fuel) s

/-- Models `goBack()`: pop the last entry of `pageHistory` and navigate to
it without pushing, falling back to `home` when the stack is empty. -/
def goBack (fuel : Nat) (s : AppState) : AppState × List String :=
  match s.pageHistory.getLast? with
  | some previousPage =>
    navigateTo fuel previousPage false { s with pageHistory := s.pageHistory.dropLast }
  | none => navigateTo fuel "home" false s

/-- Models the URL-parsing chain of `loadInitialRoute()` on
`window.location.pathname`: sets `currentPage` (defaulting to `home` for
unknown paths) and, for detail deep links with a non-empty trailing
segment, `selectedMapId` or `selectedEntityInfo`. The boolean is `true`
when `decodeURIComponent` threw a `URIError`, which in the source aborts
the rest of `loadInitialRoute`. -/
def applyRoute (path : String) (s : AppState) : AppState × Bool :=
  if path = "/" ∨ path = "" then ({ s with currentPage := "home" }, false)
  else if path = "/admin-panel" then ({ s with currentPage := "admin-panel" }, false)
  else if path = "/browse-maps" then ({ s with currentPage := "browse-maps" }, false)
  else if path = "/browse-entities" then ({ s with currentPage := "browse-entities" }, false)
  else if path = "/insert-map" then ({ s with currentPage := "insert-map" }, false)
  else if path = "/update-delete" then ({ s with currentPage := "update-delete" }, false)
  else if jsStartsWith path "/map-details/" then
    (if (jsSplit path "/map-details/").getD 1 "" ≠ "" then
       ({ s with currentPage := "map-details",
                 selectedMapId := some ((jsSplit path "/map-details/").getD 1 "") }, false)
     else ({ s with currentPage := "map-details" }, false))
  else if jsStartsWith path "/entity-details/" then
    (if (jsSplit path "/entity-details/").getD 1 "" ≠ "" then
       (match decodeURIComponent ((jsSplit path "/entity-details/").getD 1 "") with
        | some v => ({ s with currentPage := "entity-details", selectedEntityInfo := some v }, false)
        | none => ({ s with currentPage := "entity-details" }, true))
     else ({ s with currentPage := "entity-details" }, false))
  else ({ s with currentPage := "home" }, false)

/-- Models `loadInitialRoute()`: parse the current path, then update the
title and render the resulting page — unless URL decoding threw, in which
case the source aborts before `updatePageTitle`/`loadCurrentPage`. -/
def loadInitialRoute (fuel : Nat) (s : AppState) : AppState × List String :=
  match applyRoute s.locationPath s with
  | (s1, true) => (s1, [])
  | (s1, false) => loadCurrentPage fuel (updatePageTitle s1)

/-- The eight logical page names of the router. -/
def pageNames : List String :=
  ["home", "admin-panel", "browse-maps", "browse-entities",
   "map-details", "entity-details", "insert-map", "update-delete"]

/-- A path is recognised when some branch of `loadInitialRoute`'s parsing
chain other than the final default matches it. -/
def recognizedPath (path : String) : Bool :=
  path == "/" || path == "" || path == "/admin-panel" || path == "/browse-maps" ||
  path == "/browse-entities" || path == "/insert-map" || path == "/update-delete" ||
  jsStartsWith path "/map-details/" || jsStartsWith path "/entity-details/"

/-- Models `addTempEntity()` on the trimmed value of the entity-name input
field: empty names, names over 255 UTF-16 units, and duplicates are
rejected with a blocking alert and leave the list unchanged; otherwise the
name is pushed. The handler performs no network call on any path. -/
def addTempEntity (fieldValue : String) (tempEntitiesList : List String) : HandlerOutcome :=
  let entityName := jsTrim fieldValue
  if entityName = "" then
    { requests := [], alerts := ["Please enter an entity name."], tempAfter := tempEntitiesList }
  else if 255 < utf16Length entityName then
    { requests := [],
      alerts := ["Entity name is too long. Please keep it under 255 characters."],
      tempAfter := tempEntitiesList }
  else if tempEntitiesList.contains entityName then
    { requests := [], alerts := ["This entity is already in the list."],
      tempAfter := tempEntitiesList }
  else
    { requests := [], alerts := [], tempAfter := tempEntitiesList ++ [entityName] }

/-- Models `removeTempEntity(entityName)`: removes the first occurrence, if
present. -/
def removeTempEntity (entityName : String) (tempEntitiesList : List String) : List String :=
  match tempEntitiesList.indexOf? entityName with
  | some _ => tempEntitiesList.erase entityName
  | none => tempEntitiesList

/-- Models `handleUpdateMap()` on the trimmed form values: empty fields are
rejected with an alert before any network call; otherwise a `PUT` is issued
and the handler alerts with the outcome (`resp` is the parsed response,
`Except.error m` standing for a thrown network/parse error with message
`m`). -/
def handleUpdateMap (drawerRaw descRaw : String) (selectedMapId : String)
    (resp : Except String ApiResult) : List Request × List String :=
  let drawer := jsTrim drawerRaw
  let description := jsTrim descRaw
  if drawer = "" ∨ description = "" then
    ([], ["Please fill in both Drawer and Description fields."])
  else
    match resp with
    | Except.error _ =>
      ([Request.putMap selectedMapId drawer description], ["Network error while updating map"])
    | Except.ok r =>
      if r.success then
        ([Request.putMap selectedMapId drawer description], ["Map updated successfully!"])
      else
        ([Request.putMap selectedMapId drawer description],
         [jsOrStr r.message "Failed to update map"])

/-- Result of the entity-association loop inside
`handleInsertMapWithEntities`. -/
structure EntityLoopResult where
  requests : List Request
  successCount : Nat
  failed : List String
deriving DecidableEq, Repr

/-- Models the `for (const entityName of this.tempEntitiesList)` loop: one
`POST .../add` per temporary entity (name URL-encoded), counting successes
and collecting the names of entities whose response was `success:false` or
whose request threw. `entResp i` is the response to the `i`-th POST, `none`
standing for a thrown network/parse error. -/
def insertEntitiesLoop (traceNumber : String) (entResp : Nat → Option ApiResult) :
    Nat → List String → EntityLoopResult
  | _, [] => { requests := [], successCount := 0, failed := [] }
  | i, entityName :: rest =>
    let r := insertEntitiesLoop traceNumber entResp (i + 1) rest
    match entResp i with
    | some res =>
      if res.success then
        { requests := Request.postEntityAdd traceNumber (encodeURIComponent entityName) :: r.requests,
          successCount := r.successCount + 1, failed := r.failed }
      else
        { requests := Request.postEntityAdd traceNumber (encodeURIComponent entityName) :: r.requests,
          successCount := r.successCount, failed := entityName :: r.failed }
    | none =>
      { requests := Request.postEntityAdd traceNumber (encodeURIComponent entityName) :: r.requests,
        successCount := r.successCount, failed := entityName :: r.failed }

/-- Models `handleInsertMapWithEntities()` on the trimmed form values:
an empty required field is rejected with an alert before any network call;
otherwise the map is POSTed (`mapResp` its response, `Except.error m` a
thrown error with message `m`); on map success every temporary entity is
POSTed in order and an aggregate alert is produced, after which the form
and the temporary list are reset. A failed map insert alerts and leaves
the temporary list untouched; failed entities are reported but nothing is
rolled back. -/
def handleInsertMapWithEntities (traceRaw drawerRaw descRaw username : String)
    (tempEntitiesList : List String) (mapResp : Except String ApiResult)
    (entResp : Nat → Option ApiResult) : HandlerOutcome :=
  let traceNumber := jsTrim traceRaw
  let drawer := jsTrim drawerRaw
  let description := jsTrim descRaw
  if traceNumber = "" ∨ drawer = "" ∨ description = "" then
    { requests := [], alerts := ["Please fill in all required map fields."],
      tempAfter := tempEntitiesList }
  else
    match mapResp with
    | Except.error m =>
      { requests := [Request.postMap traceNumber drawer description username],
        alerts := ["Error inserting map: " ++ m], tempAfter := tempEntitiesList }
    | Except.ok mapResult =>
      if mapResult.success = false then
        { requests := [Request.postMap traceNumber drawer description username],
          alerts := ["Error inserting map: " ++ jsOrStr mapResult.message "Failed to insert map"],
          tempAfter := tempEntitiesList }
      else if 0 < tempEntitiesList.length then
        let lr := insertEntitiesLoop traceNumber entResp 0 tempEntitiesList
        if lr.failed = [] then
          { requests := Request.postMap traceNumber drawer description username :: lr.requests,
            alerts := ["Map and all " ++ toString lr.successCount ++
                       " entities inserted successfully!"],
            tempAfter := [] }
        else
          { requests := Request.postMap traceNumber drawer description username :: lr.requests,
            alerts := ["Map inserted successfully!\n" ++ toString lr.successCount ++
                       " entities added successfully.\n" ++ toString lr.failed.length ++
                       " entities failed: " ++ joinWith ", " lr.failed],
            tempAfter := [] }
      else
        { requests := [Request.postMap traceNumber drawer description username],
          alerts := ["Map inserted successfully!"], tempAfter := [] }

/-- Models the client-side filtering step of `filterEntitiesByLetter(letter)`
on the fetched records: a truthy letter keeps exactly the entities whose
`EntityName` (defaulted to `''`) starts, case-insensitively, with it; a
falsy letter (the All button's `null`) keeps everything. -/
def filterEntitiesByLetter (letter : Option String) (data : List Entity) : List Entity :=
  if jsTruthyOpt letter then
    data.filter (fun entity =>
      jsStartsWith (jsToLower (jsOrStr entity.EntityName "")) (jsToLower (letter.getD "")))
  else data

/-- Models `renderPaginationButtons(currentPage, totalPages, type)`: empty
markup when there is at most one page, otherwise a Previous button exactly
when not on the first page followed by a Next button exactly when not on
the last page. -/
def renderPaginationButtons (currentPage totalPages : Int) (type : String) : String :=
  if totalPages ≤ 1 then ""
  else
    let buttons := ""
    let buttons := if 1 < currentPage then
        buttons ++ "<button class=\"pagination-button\" onclick=\"beismanApp.loadPage(\x27" ++
          type ++ "\x27, " ++ toString (currentPage - 1) ++ ")\">⬅️ Previous</button>"
      else buttons
    let buttons := if currentPage < totalPages then
        buttons ++ "<button class=\"pagination-button\" onclick=\"beismanApp.loadPage(\x27" ++
          type ++ "\x27, " ++ toString (currentPage + 1) ++ ")\">Next ➡️</button>"
      else buttons
    buttons

/-- Models `loadPage(type, page)`: the body only logs to the console, so it
issues no request and returns the state unchanged. -/
def loadPage (type : String) (page : Int) (s : AppState) : AppState × List Request :=
  (s, [])

/-- The Previous control's visible label. -/
def prevMark : String := "⬅️ Previous"

/-- The Next control's visible label. -/
def nextMark : String := "Next ➡️"

/-- Backend oracle for the partial-failure insert scenario: the first
association POST succeeds and every later one returns `success:false`. -/
def entRespSecondFails : Nat → Option ApiResult := fun i =>
  if i = 0 then some { success := true, message := none }
  else some { success := false, message := none }

@[simp] theorem updateBrowserHistory_currentPage (page : String) (m e : Option String)
    (s : AppState) : (updateBrowserHistory page m e s).currentPage = s.currentPage := by
  unfold updateBrowserHistory; split <;> rfl

@[simp] theorem updateBrowserHistory_pageHistory (page : String) (m e : Option String)
    (s : AppState) : (updateBrowserHistory page m e s).pageHistory = s.pageHistory := by
  unfold updateBrowserHistory; split <;> rfl

@[simp] theorem updateBrowserHistory_selectedMapId (page : String) (m e : Option String)
    (s : AppState) : (updateBrowserHistory page m e s).selectedMapId = s.selectedMapId := by
  unfold updateBrowserHistory; split <;> rfl

@[simp] theorem updateBrowserHistory_selectedEntityInfo (page : String) (m e : Option String)
    (s : AppState) : (updateBrowserHistory page m e s).selectedEntityInfo = s.selectedEntityInfo := by
  unfold updateBrowserHistory; split <;> rfl

@[simp] theorem updateBrowserHistory_tempEntitiesList (page : String) (m e : Option String)
    (s : AppState) : (updateBrowserHistory page m e s).tempEntitiesList = s.tempEntitiesList := by
  unfold updateBrowserHistory; split <;> rfl

@[simp] theorem updateBrowserHistory_currentUser (page : String) (m e : Option String)
    (s : AppState) : (updateBrowserHistory page m e s).currentUser = s.currentUser := by
  unfold updateBrowserHistory; split <;> rfl

@[simp] theorem updatePageTitle_currentPage (s : AppState) :
    (updatePageTitle s).currentPage = s.currentPage := rfl

@[simp] theorem updatePageTitle_pageHistory (s : AppState) :
    (updatePageTitle s).pageHistory = s.pageHistory := rfl

@[simp] theorem updatePageTitle_selectedMapId (s : AppState) :
    (updatePageTitle s).selectedMapId = s.selectedMapId := rfl

@[simp] theorem updatePageTitle_selectedEntityInfo (s : AppState) :
    (updatePageTitle s).selectedEntityInfo = s.selectedEntityInfo := rfl

@[simp] theorem updatePageTitle_tempEntitiesList (s : AppState) :
    (updatePageTitle s).tempEntitiesList = s.tempEntitiesList := rfl

@[simp] theorem updatePageTitle_currentUser (s : AppState) :
    (updatePageTitle s).currentUser = s.currentUser := rfl

/-- Any dispatch through `loadCurrentPageWith` preserves `selectedMapId` and
either keeps `currentPage` or moves to `home`, provided the supplied
navigation function has those properties. -/
theorem loadCurrentPageWith_frame (nav : String → Bool → AppState → AppState × List String)
    (hnav : ∀ page add s, ((nav page add s).1.selectedMapId = s.selectedMapId) ∧
      ((nav page add s).1.currentPage = s.currentPage ∨ (nav page add s).1.currentPage = page ∨
       (nav page add s).1.currentPage = "home")) :
    ∀ s, ((loadCurrentPageWith nav s).1.selectedMapId = s.selectedMapId) ∧
      ((loadCurrentPageWith nav s).1.currentPage = s.currentPage ∨
       (loadCurrentPageWith nav s).1.currentPage = "home") := by
  intro s
  unfold loadCurrentPageWith loadAdminPanelWith loadInsertMapWith loadUpdateDeleteWith
    loadHomePage loadBrowseMaps loadBrowseEntities loadMapDetails loadEntityDetails
  repeat' split
  all_goals try exact ⟨rfl, Or.inl rfl⟩
  all_goals
    obtain ⟨h1, h2⟩ := hnav "home" true s
    refine ⟨h1, ?_⟩
    rcases h2 with h | h | h
    · exact Or.inl h
    · exact Or.inr h
    · exact Or.inr h

/-- `navigateTo` preserves `selectedMapId`, and leaves `currentPage` either
untouched (out of fuel), at the requested page, or redirected to `home`. -/
theorem navigateTo_frame : ∀ (fuel : Nat) (page : String) (add : Bool) (s : AppState),
    ((navigateTo fuel page add s).1.selectedMapId = s.selectedMapId) ∧
    ((navigateTo fuel page add s).1.currentPage = s.currentPage ∨
     (navigateTo fuel page add s).1.currentPage = page ∨
     (navigateTo fuel page add s).1.currentPage = "home") := by
  intro fuel
  induction fuel with
  | zero => intro page add s; exact ⟨rfl, Or.inl rfl⟩
  | succ f ih =>
    intro page add s
    have hmain := loadCurrentPageWith_frame (navigateTo f) ih
    simp only [navigateTo]
    constructor
    · rw [(hmain _).1]
      simp only [updatePageTitle_selectedMapId, updateBrowserHistory_selectedMapId]
      split <;> rfl
    · rcases (hmain _).2 with h | h
      · rw [h]
        simp [updatePageTitle_currentPage, updateBrowserHistory_currentPage]
      · exact Or.inr (Or.inr h)

/-- `loadCurrentPage` preserves `selectedMapId` and either keeps
`currentPage` or redirects to `home`. -/
theorem loadCurrentPage_frame (fuel : Nat) (s : AppState) :
    ((loadCurrentPage fuel s).1.selectedMapId = s.selectedMapId) ∧
    ((loadCurrentPage fuel s).1.currentPage = s.currentPage ∨
     (loadCurrentPage fuel s).1.currentPage = "home") :=
  loadCurrentPageWith_frame (navigateTo fuel) (navigateTo_frame fuel) s

/-- When the current page is not an admin-gated page rendered without an
admin session, the dispatch renders in place: `currentPage` and
`pageHistory` are untouched. -/
theorem loadCurrentPageWith_no_redirect
    (nav : String → Bool → AppState → AppState × List String) (s : AppState)
    (h : (s.currentPage = "admin-panel" ∨ s.currentPage = "insert-map" ∨
          s.currentPage = "update-delete") → jsIsAdmin s.currentUser = true) :
    (loadCurrentPageWith nav s).1.currentPage = s.currentPage ∧
    (loadCurrentPageWith nav s).1.pageHistory = s.pageHistory := by
  unfold loadCurrentPageWith loadAdminPanelWith loadInsertMapWith loadUpdateDeleteWith
    loadHomePage loadBrowseMaps loadBrowseEntities loadMapDetails loadEntityDetails
  repeat' split
  all_goals try exact ⟨rfl, rfl⟩
  all_goals simp_all

/-- Case analysis on `applyRoute`: the parsed page is one of the router's
eight names, `selectedMapId` changes only for a `/map-details/` deep link
with a non-empty trailing segment (and then to that segment), unrecognised
paths parse to `home`, and a `URIError` can only arise on a recognised
path. -/
theorem applyRoute_spec (path : String) (s : AppState) :
    ((applyRoute path s).1.currentPage ∈ pageNames) ∧
    ((applyRoute path s).1.selectedMapId = s.selectedMapId ∨
      (jsStartsWith path "/map-details/" = true ∧
       (jsSplit path "/map-details/").getD 1 "" ≠ "" ∧
       (applyRoute path s).1.selectedMapId = some ((jsSplit path "/map-details/").getD 1 ""))) ∧
    (recognizedPath path = false → (applyRoute path s).1.currentPage = "home") ∧
    ((applyRoute path s).2 = true → recognizedPath path = true) := by
  unfold applyRoute
  repeat' split
  all_goals simp_all [pageNames, recognizedPath]

/-- Parsing the concrete path `/map-details/42` selects the map-details
page and map id `42`. -/
theorem applyRoute_mapDetails42 (s : AppState) :
    applyRoute "/map-details/42" s =
      ({ s with currentPage := "map-details", selectedMapId := some "42" }, false) := by
  unfold applyRoute
  rw [if_neg (by decide), if_neg (by decide), if_neg (by decide), if_neg (by decide),
      if_neg (by decide), if_neg (by decide), if_pos (by decide), if_pos (by decide),
      (by decide : ((jsSplit "/map-details/42" "/map-details/").getD 1 "") = "42")]

/-- C4: pagination controls are gated on page bounds: for a list response
with `total_pages = 3`, page 2 renders both a Previous and a Next button,
page 1 renders only Next, and the last page renders only Previous — for
both the maps and the entities list. -/
theorem spec_c4_pagination_gating :
    (hasRun prevMark.data (renderPaginationButtons 2 3 "maps").data = true ∧
     hasRun nextMark.data (renderPaginationButtons 2 3 "maps").data = true) ∧
    (hasRun prevMark.data (renderPaginationButtons 1 3 "maps").data = false ∧
     hasRun nextMark.data (renderPaginationButtons 1 3 "maps").data = true) ∧
    (hasRun prevMark.data (renderPaginationButtons 3 3 "maps").data = true ∧
     hasRun nextMark.data (renderPaginationButtons 3 3 "maps").data = false) ∧
    (hasRun prevMark.data (renderPaginationButtons 2 3 "entities").data = true ∧
     hasRun nextMark.data (renderPaginationButtons 2 3 "entities").data = true) ∧
    (hasRun prevMark.data (renderPaginationButtons 1 3 "entities").data = false ∧
     hasRun nextMark.data (renderPaginationButtons 1 3 "entities").data = true) ∧
    (hasRun prevMark.data (renderPaginationButtons 3 3 "entities").data = true ∧
     hasRun nextMark.data (renderPaginationButtons 3 3 "entities").data = false) := by
  decide

/-- C5: the entity letter filter is a case-insensitive prefix match on
`EntityName` that preserves the fetched order: letter `M` over
Martinez, adams, Moreno keeps exactly Martinez then Moreno; in general the
filtered list is a sublist (order-preserving selection) of the input. -/
theorem spec_c5_letter_filter :
    (filterEntitiesByLetter (some "M")
        [{ EntityName := some "Martinez", BeismanNumber := some "1" },
         { EntityName := some "adams", BeismanNumber := some "2" },
         { EntityName := some "Moreno", BeismanNumber := some "3" }] =
      [{ EntityName := some "Martinez", BeismanNumber := some "1" },
       { EntityName := some "Moreno", BeismanNumber := some "3" }]) ∧
    (∀ (letter : Option String) (data : List Entity),
      (filterEntitiesByLetter letter data).Sublist data) := by
  constructor
  · decide
  · intro letter data
    unfold filterEntitiesByLetter
    split
    · exact List.filter_sublist data
    · exact List.Sublist.refl data

/-- C6: adding the same entity name twice rejects the second addition with
the duplicate alert: starting from the empty temporary list of a fresh
insert-map page, the list ends with length 1 and is unchanged by the
rejected call, which issues no request. -/
theorem spec_c6_duplicate_temp_entity :
    (addTempEntity "Acme" []).tempAfter = ["Acme"] ∧
    (addTempEntity "Acme" (addTempEntity "Acme" []).tempAfter).tempAfter.length = 1 ∧
    addTempEntity "Acme" (addTempEntity "Acme" []).tempAfter =
      { requests := [], alerts := ["This entity is already in the list."],
        tempAfter := (addTempEntity "Acme" []).tempAfter } := by
  decide

/-- C9: the pagination buttons' click handler `loadPage` is an inert stub —
the rendered controls do invoke it, but it issues no request and leaves
every field of the application state unchanged. -/
theorem spec_c9_loadPage_inert :
    (∀ (t : String) (p : Int) (s : AppState),
      (loadPage t p s).1.currentPage = s.currentPage ∧
      (loadPage t p s).1.pageHistory = s.pageHistory ∧
      (loadPage t p s).1.selectedMapId = s.selectedMapId ∧
      (loadPage t p s).1.selectedEntityInfo = s.selectedEntityInfo ∧
      (loadPage t p s).1.tempEntitiesList = s.tempEntitiesList ∧
      (loadPage t p s).1.currentUser = s.currentUser ∧
      (loadPage t p s).2 = []) ∧
    hasRun "beismanApp.loadPage".data (renderPaginationButtons 2 3 "maps").data = true := by
  constructor
  · intro t p s
    exact ⟨rfl, rfl, rfl, rfl, rfl, rfl, rfl⟩
  · decide

/-- C1: rendering the admin-panel, insert-map, or update-delete page with
no session or a non-admin session redirects to `home` before any
page-specific content is rendered: `currentPage` ends as `home` and the
only page whose content was rendered is `home`. -/
theorem spec_c1_admin_gate (fuel : Nat) (s : AppState) (hfuel : 1 ≤ fuel)
    (hpage : s.currentPage = "admin-panel" ∨ s.currentPage = "insert-map" ∨
             s.currentPage = "update-delete")
    (hadmin : jsIsAdmin s.currentUser = false) :
    (loadCurrentPage fuel s).1.currentPage = "home" ∧
    (loadCurrentPage fuel s).2 = ["home"] := by
  obtain ⟨f, rfl⟩ : ∃ f, fuel = f + 1 := ⟨fuel - 1, by omega⟩
  rcases hpage with h | h | h <;>
    simp [loadCurrentPage, loadCurrentPageWith, loadAdminPanelWith, loadInsertMapWith,
          loadUpdateDeleteWith, h, hadmin, navigateTo, loadHomePage]

/-- Witness for C1: a concrete non-admin render of each gated page
(`AppState.mk` takes currentUser, currentPage, pageHistory, selectedMapId,
selectedEntityInfo, tempEntitiesList, locationPath, pageTitle). -/
theorem spec_c1_admin_gate_witness :
    ((loadCurrentPage 2 (AppState.mk none "admin-panel" ["home"] none none []
        "/admin-panel" "Beisman Map Menu - Admin Panel")).1.currentPage = "home" ∧
     (loadCurrentPage 2 (AppState.mk none "admin-panel" ["home"] none none []
        "/admin-panel" "Beisman Map Menu - Admin Panel")).2 = ["home"]) ∧
    ((loadCurrentPage 2 (AppState.mk (some (User.mk "guest" "Guest" false none))
        "insert-map" [] none none [] "/insert-map" "Insert New Map")).1.currentPage = "home" ∧
     (loadCurrentPage 2 (AppState.mk (some (User.mk "guest" "Guest" false none))
        "insert-map" [] none none [] "/insert-map" "Insert New Map")).2 = ["home"]) :=
  ⟨spec_c1_admin_gate 2 _ (by omega) (Or.inl rfl) (by decide),
   spec_c1_admin_gate 2 _ (by omega) (Or.inr (Or.inl rfl)) (by decide)⟩

/-- C3: round-trip of the router's URL mapping: `updateBrowserHistory`
for the map-details page with id `42` leaves the browser path at
`/map-details/42`, and re-parsing that path through the initial-route
loader yields `currentPage = map-details` and `selectedMapId = 42`. -/
theorem spec_c3_url_roundtrip (fuel : Nat) (s : AppState) :
    (updateBrowserHistory "map-details" (some "42") none s).locationPath = "/map-details/42" ∧
    (loadInitialRoute fuel
       (updateBrowserHistory "map-details" (some "42") none s)).1.currentPage = "map-details" ∧
    (loadInitialRoute fuel
       (updateBrowserHistory "map-details" (some "42") none s)).1.selectedMapId = some "42" := by
  have hpath : (updateBrowserHistory "map-details" (some "42") none s).locationPath =
      "/map-details/42" := by
    unfold updateBrowserHistory
    rw [(by decide : urlPathFor "map-details" (some "42") none = "/map-details/42")]
    split
    · rfl
    · next h => exact not_ne_iff.mp h
  have hroute : loadInitialRoute fuel (updateBrowserHistory "map-details" (some "42") none s) =
      loadCurrentPage fuel (updatePageTitle
        { updateBrowserHistory "map-details" (some "42") none s with
          currentPage := "map-details", selectedMapId := some "42" }) := by
    unfold loadInitialRoute
    rw [hpath, applyRoute_mapDetails42]
  refine ⟨hpath, ?_, ?_⟩ <;>
    rw [hroute] <;>
    simp [loadCurrentPage, loadCurrentPageWith, loadMapDetails, updatePageTitle]

/-- C7: every client-side validation failure — an empty required field on
map insert or update, and an empty, over-long, or duplicate temporary
entity name — produces a blocking alert, issues no network request, and
leaves the temporary entity list unchanged. -/
theorem spec_c7_validation_no_network (tr dr de un : String) (temp : List String)
    (mr : Except String ApiResult) (er : Nat → Option ApiResult)
    (dr2 de2 mid : String) (r2 : Except String ApiResult)
    (field : String) (temp2 : List String) :
    ((jsTrim tr = "" ∨ jsTrim dr = "" ∨ jsTrim de = "") →
      handleInsertMapWithEntities tr dr de un temp mr er =
        { requests := [], alerts := ["Please fill in all required map fields."],
          tempAfter := temp }) ∧
    ((jsTrim dr2 = "" ∨ jsTrim de2 = "") →
      handleUpdateMap dr2 de2 mid r2 =
        ([], ["Please fill in both Drawer and Description fields."])) ∧
    ((jsTrim field = "" ∨ 255 < utf16Length (jsTrim field) ∨
        temp2.contains (jsTrim field) = true) →
      (addTempEntity field temp2).requests = [] ∧ (addTempEntity field temp2).alerts ≠ [] ∧
      (addTempEntity field temp2).tempAfter = temp2) := by
  refine ⟨?_, ?_, ?_⟩
  · intro h
    simp only [handleInsertMapWithEntities]
    rw [if_pos h]
  · intro h
    simp only [handleUpdateMap]
    rw [if_pos h]
  · intro h
    simp only [addTempEntity]
    by_cases h1 : jsTrim field = ""
    · rw [if_pos h1]
      exact ⟨rfl, by simp, rfl⟩
    · rw [if_neg h1]
      by_cases hlen : 255 < utf16Length (jsTrim field)
      · rw [if_pos hlen]
        exact ⟨rfl, by simp, rfl⟩
      · rw [if_neg hlen]
        have hdup : temp2.contains (jsTrim field) = true := by
          rcases h with h | h | h
          · exact absurd h h1
          · exact absurd h hlen
          · exact h
        rw [if_pos hdup]
        exact ⟨rfl, by simp, rfl⟩

/-- Witness for C7: concrete validation failures for all three handlers. -/
theorem spec_c7_validation_no_network_witness :
    (handleInsertMapWithEntities "  " "d" "x" "admin" ["E"]
        (Except.ok { success := true, message := none }) (fun _ => none) =
      { requests := [], alerts := ["Please fill in all required map fields."],
        tempAfter := ["E"] }) ∧
    (handleUpdateMap "" "desc" "7" (Except.ok { success := true, message := none }) =
      ([], ["Please fill in both Drawer and Description fields."])) ∧
    ((addTempEntity "Acme" ["Acme"]).requests = [] ∧
     (addTempEntity "Acme" ["Acme"]).alerts ≠ [] ∧
     (addTempEntity "Acme" ["Acme"]).tempAfter = ["Acme"]) :=
  ⟨(spec_c7_validation_no_network "  " "d" "x" "admin" ["E"]
      (Except.ok { success := true, message := none }) (fun _ => none)
      "" "desc" "7" (Except.ok { success := true, message := none })
      "Acme" ["Acme"]).1 (Or.inl (by decide)),
   (spec_c7_validation_no_network "  " "d" "x" "admin" ["E"]
      (Except.ok { success := true, message := none }) (fun _ => none)
      "" "desc" "7" (Except.ok { success := true, message := none })
      "Acme" ["Acme"]).2.1 (Or.inl (by decide)),
   (spec_c7_validation_no_network "  " "d" "x" "admin" ["E"]
      (Except.ok { success := true, message := none }) (fun _ => none)
      "" "desc" "7" (Except.ok { success := true, message := none })
      "Acme" ["Acme"]).2.2 (by decide)⟩

/-- C2: a map insert whose map POST succeeds, with two queued entities of
which the second association POST returns `success:false`, issues exactly
the map POST and the two association POSTs (no rollback requests), and
reports the map as inserted with `1 entities failed` listing that name;
the temporary list is then reset. -/
theorem spec_c2_partial_failure (tn dr de un e1 e2 : String)
    (h1 : jsTrim tn ≠ "") (h2 : jsTrim dr ≠ "") (h3 : jsTrim de ≠ "") :
    handleInsertMapWithEntities tn dr de un [e1, e2]
      (Except.ok { success := true, message := none }) entRespSecondFails =
    { requests := [Request.postMap (jsTrim tn) (jsTrim dr) (jsTrim de) un,
                   Request.postEntityAdd (jsTrim tn) (encodeURIComponent e1),
                   Request.postEntityAdd (jsTrim tn) (encodeURIComponent e2)],
      alerts := ["Map inserted successfully!\n1 entities added successfully.\n1 entities failed: "
                 ++ e2],
      tempAfter := [] } := by
  simp only [handleInsertMapWithEntities]
  rw [if_neg (by simp [h1, h2, h3])]
  simp [insertEntitiesLoop, entRespSecondFails, joinWith]
  rw [(by decide : (toString (1 : Nat)) = "1")]
  congr 1

/-- Witness for C2: the scenario with concrete form values and entity
names `Acme` and `Beta`. -/
theorem spec_c2_partial_failure_witness :
    handleInsertMapWithEntities "12" "D1" "A property" "admin" ["Acme", "Beta"]
      (Except.ok { success := true, message := none }) entRespSecondFails =
    { requests := [Request.postMap (jsTrim "12") (jsTrim "D1") (jsTrim "A property") "admin",
                   Request.postEntityAdd (jsTrim "12") (encodeURIComponent "Acme"),
                   Request.postEntityAdd (jsTrim "12") (encodeURIComponent "Beta")],
      alerts := ["Map inserted successfully!\n1 entities added successfully.\n1 entities failed: "
                 ++ "Beta"],
      tempAfter := [] } :=
  spec_c2_partial_failure "12" "D1" "A property" "admin" "Acme" "Beta"
    (by decide) (by decide) (by decide)

/-- Navigation without history push: when the target page's renderer does
not redirect (it is not an admin-gated page viewed without an admin
session), `navigateTo(page, false)` lands on `page` and leaves
`pageHistory` untouched. -/
theorem navigateTo_no_push (f : Nat) (p : String) (s : AppState)
    (hadm : (p = "admin-panel" ∨ p = "insert-map" ∨ p = "update-delete") →
      jsIsAdmin s.currentUser = true) :
    (navigateTo (f + 1) p false s).1.currentPage = p ∧
    (navigateTo (f + 1) p false s).1.pageHistory = s.pageHistory := by
  have key : ∀ t : AppState, t.currentPage = p → t.currentUser = s.currentUser →
      t.pageHistory = s.pageHistory →
      (loadCurrentPageWith (navigateTo f) t).1.currentPage = p ∧
      (loadCurrentPageWith (navigateTo f) t).1.pageHistory = s.pageHistory := by
    intro t ht1 ht2 ht3
    obtain ⟨hc, hh⟩ := loadCurrentPageWith_no_redirect (navigateTo f) t
      (by rw [ht1, ht2]; exact hadm)
    rw [hc, hh, ht1, ht3]
    exact ⟨rfl, rfl⟩
  simp only [navigateTo]
  apply key <;> simp

/-- C8 (amended), counterexample: with `pageHistory = ["admin-panel"]` and
no session, `goBack()` pops `admin-panel`, but its renderer redirects to
`home` with a fresh push, so the application does not land on the popped
page and `pageHistory` is not left popped — contradicting the claim that
the popped entry is navigated to without pushing a new history entry. -/
theorem spec_c8_goBack_counterexample :
    ((goBack 2 (AppState.mk none "home" ["admin-panel"] none none [] "/"
        "Beisman Map Menu")).1.currentPage = "home" ∧
     (goBack 2 (AppState.mk none "home" ["admin-panel"] none none [] "/"
        "Beisman Map Menu")).1.pageHistory = ["admin-panel"]) ∧
    ¬((goBack 2 (AppState.mk none "home" ["admin-panel"] none none [] "/"
        "Beisman Map Menu")).1.currentPage = "admin-panel" ∧
      (goBack 2 (AppState.mk none "home" ["admin-panel"] none none [] "/"
        "Beisman Map Menu")).1.pageHistory = []) := by
  decide

/-- C8 (amended): `goBack()` on an empty `pageHistory` never throws and
lands on `home`; on a non-empty stack it pops the last-pushed entry and
navigates to it with the history push suppressed, so — provided the popped
page is not an admin-gated page being rendered without an admin session,
whose renderer would redirect home and push — `currentPage` becomes the
popped entry and `pageHistory` is the original minus its last entry. -/
theorem spec_c8_goBack (fuel : Nat) (s : AppState) (hfuel : 1 ≤ fuel) :
    (s.pageHistory = [] → (goBack fuel s).1.currentPage = "home") ∧
    (∀ hist p, s.pageHistory = hist ++ [p] →
      ((p = "admin-panel" ∨ p = "insert-map" ∨ p = "update-delete") →
        jsIsAdmin s.currentUser = true) →
      (goBack fuel s).1.currentPage = p ∧ (goBack fuel s).1.pageHistory = hist) := by
  obtain ⟨f, rfl⟩ : ∃ f, fuel = f + 1 := ⟨fuel - 1, by omega⟩
  constructor
  · intro hemp
    unfold goBack
    rw [hemp]
    exact (navigateTo_no_push f "home" s (fun h => absurd h (by decide))).1
  · intro hist p hrec hadm
    unfold goBack
    rw [hrec, List.getLast?_concat, List.dropLast_concat]
    exact navigateTo_no_push f p { s with pageHistory := hist } hadm

/-- Witness for C8 (amended): popping `browse-maps` from the stack of an
anonymous session lands on `browse-maps` with the stack popped, and
`goBack` on an empty stack lands on `home`. -/
theorem spec_c8_goBack_witness :
    ((goBack 2 (AppState.mk none "home" [] none none [] "/" "Beisman Map Menu")).1.currentPage =
      "home") ∧
    ((goBack 2 (AppState.mk none "map-details" ["browse-maps"] (some "7") none [] "/map-details/7"
        "Map Information")).1.currentPage = "browse-maps" ∧
     (goBack 2 (AppState.mk none "map-details" ["browse-maps"] (some "7") none [] "/map-details/7"
        "Map Information")).1.pageHistory = []) :=
  ⟨(spec_c8_goBack 2 (AppState.mk none "home" [] none none [] "/" "Beisman Map Menu")
      (by omega)).1 rfl,
   (spec_c8_goBack 2 (AppState.mk none "map-details" ["browse-maps"] (some "7") none []
      "/map-details/7" "Map Information") (by omega)).2 [] "browse-maps" rfl
     (fun h => absurd h (by decide))⟩

/-- C10: initial-route parsing is total: for every pathname and state, the
loader leaves `currentPage` at one of the eight known page names,
unrecognised paths land on `home`, and `selectedMapId` changes only when
the path is a `/map-details/` deep link with a non-empty trailing segment
(and then it becomes that segment). -/
theorem spec_c10_route_totality (fuel : Nat) (s : AppState) :
    ((loadInitialRoute fuel s).1.currentPage ∈ pageNames) ∧
    ((loadInitialRoute fuel s).1.selectedMapId = s.selectedMapId ∨
      (jsStartsWith s.locationPath "/map-details/" = true ∧
       (jsSplit s.locationPath "/map-details/").getD 1 "" ≠ "" ∧
       (loadInitialRoute fuel s).1.selectedMapId =
         some ((jsSplit s.locationPath "/map-details/").getD 1 ""))) ∧
    (recognizedPath s.locationPath = false →
      (loadInitialRoute fuel s).1.currentPage = "home") := by
  obtain ⟨h1, h2, h3, h4⟩ := applyRoute_spec s.locationPath s
  have hmain : loadInitialRoute fuel s =
      if (applyRoute s.locationPath s).2 = true then ((applyRoute s.locationPath s).1, [])
      else loadCurrentPage fuel (updatePageTitle (applyRoute s.locationPath s).1) := by
    unfold loadInitialRoute
    rcases applyRoute s.locationPath s with ⟨s1, b⟩
    cases b <;> simp
  rw [hmain]
  by_cases hb : (applyRoute s.locationPath s).2 = true
  · rw [if_pos hb]
    refine ⟨h1, h2, ?_⟩
    intro hrec
    rw [h4 hb] at hrec
    exact absurd hrec (by simp)
  · rw [if_neg hb]
    obtain ⟨f1, f2⟩ := loadCurrentPage_frame fuel (updatePageTitle (applyRoute s.locationPath s).1)
    rw [updatePageTitle_selectedMapId] at f1
    rw [updatePageTitle_currentPage] at f2
    refine ⟨?_, ?_, ?_⟩
    · rcases f2 with hcp | hcp
      · rw [hcp]; exact h1
      · rw [hcp]; simp [pageNames]
    · rw [f1]; exact h2
    · intro hrec
      rcases f2 with hcp | hcp
      · rw [hcp]; exact h3 hrec
      · rw [hcp]

/-- Witness for C10: an unrecognised path parses to an in-range page and
defaults to `home`. -/
theorem spec_c10_route_totality_witness :
    ((loadInitialRoute 1 (AppState.mk none "home" [] none none [] "/nonsense"
        "Beisman Map Menu")).1.currentPage ∈ pageNames) ∧
    (loadInitialRoute 1 (AppState.mk none "home" [] none none [] "/nonsense"
        "Beisman Map Menu")).1.currentPage = "home" :=
  ⟨(spec_c10_route_totality 1
      (AppState.mk none "home" [] none none [] "/nonsense" "Beisman Map Menu")).1,
   (spec_c10_route_totality 1
      (AppState.mk none "home" [] none none [] "/nonsense" "Beisman Map Menu")).2.2 (by decide)⟩
